import Mathlib

/-!
Verification of the storyteller multi-agent voice application
(`main.py`): the shared `StoryData` record, the lead editor's and the
specialist editor's function tools, the terminal tool `story_finished`,
and the worker lifecycle (`prewarm` / `entrypoint`).

The Python code is embedded shallowly: each tool becomes a pure Lean
function from its inputs (the run context carrying the shared user data
and the session chat context) to its outputs (the updated context, the
ordered list of observable session effects it performs, and any handoff
directive or teardown outcome it returns).
-/

/-- A chat context is the ordered list of prior conversation items. -/
abbrev ChatCtx := List String

/-- `CharacterData` from `main.py`: name and background, both optional
with default `None`. -/
structure CharacterData where
  name : Option String := none
  background : Option String := none
deriving Repr, DecidableEq

/-- `StoryData` from `main.py`: the shared per-session record. -/
structure StoryData where
  characters : List CharacterData := []
  locations : List String := []
  theme : Option String := none
deriving Repr, DecidableEq

/-- `StoryData()` as constructed in `entrypoint`: all fields default. -/
def StoryData.init : StoryData := {}

/-- The observable effects a tool may perform on the session or the
room service, in the order the Python statements execute them. -/
inductive Effect where
  | interrupt : Effect
  | generateReply (instructions : Option String)
      (allowInterruptions : Option Bool) (awaited : Bool) : Effect
  | deleteRoomRequest (room : String) : Effect
  | log (msg : String) : Effect
deriving Repr, DecidableEq

/-- The run context handed to every tool: the shared user data and the
session's current chat context (`context.session._chat_ctx`). -/
structure RunCtx where
  userdata : StoryData
  session_chat_ctx : ChatCtx
deriving Repr, DecidableEq

def common_instructions : String :=
  "You are an editor at a leading publishing house, with a strong track record "
  ++ "of discovering and nurturing new talent. You are a great communicator and ask "
  ++ "the right questions to get the best out of people. You want the best for your "
  ++ "authors, and you are not afraid to tell them when their ideas are not good enough."

/-- `SpecialistEditorAgent.__init__`: keeps the specialty, derives the
instruction string from it, and stores the chat context it was given. -/
structure SpecialistEditorAgent where
  specialty : String
  chat_ctx : Option ChatCtx
deriving Repr, DecidableEq

def SpecialistEditorAgent.instructions (a : SpecialistEditorAgent) : String :=
  common_instructions ++ ". You specialize in " ++ a.specialty ++ ", and have "
  ++ "worked with some of the greats, and have even written a few books yourself."

namespace LeadEditorAgent

/-- `LeadEditorAgent.character_introduction`: appends a
`CharacterData(name, background)` to `userdata.characters`, then logs. -/
def character_introduction (ctx : RunCtx) (name background : String) :
    RunCtx × List Effect :=
  let character : CharacterData := { name := some name, background := some background }
  ({ ctx with userdata :=
      { ctx.userdata with characters := ctx.userdata.characters ++ [character] } },
   [Effect.log ("added character to the story: " ++ name)])

/-- `LeadEditorAgent.location_introduction`: appends the location to
`userdata.locations`, then logs. -/
def location_introduction (ctx : RunCtx) (location : String) :
    RunCtx × List Effect :=
  ({ ctx with userdata :=
      { ctx.userdata with locations := ctx.userdata.locations ++ [location] } },
   [Effect.log ("added location to the story: " ++ location)])

/-- `LeadEditorAgent.theme_introduction`: overwrites `userdata.theme`,
then logs. -/
def theme_introduction (ctx : RunCtx) (theme : String) :
    RunCtx × List Effect :=
  ({ ctx with userdata := { ctx.userdata with theme := some theme } },
   [Effect.log ("set theme to the story: " ++ theme)])

/-- `LeadEditorAgent.detected_childrens_book`: builds a
`SpecialistEditorAgent("children\x27s books", chat_ctx=context.session._chat_ctx)`,
logs, and returns the handoff directive with its announcement string. -/
def detected_childrens_book (ctx : RunCtx) :
    RunCtx × List Effect × (SpecialistEditorAgent × String) :=
  let childrens_editor : SpecialistEditorAgent :=
    { specialty := "children\x27s books", chat_ctx := some ctx.session_chat_ctx }
  (ctx,
   [Effect.log "switching to the children\x27s book editor with the provided user data"],
   (childrens_editor, "Let\x27s switch to the children\x27s book editor."))

/-- `LeadEditorAgent.detected_novel`: builds a
`SpecialistEditorAgent("novels", chat_ctx=context.session._chat_ctx)`,
logs, and returns the handoff directive with its announcement string. -/
def detected_novel (ctx : RunCtx) :
    RunCtx × List Effect × (SpecialistEditorAgent × String) :=
  let childrens_editor : SpecialistEditorAgent :=
    { specialty := "novels", chat_ctx := some ctx.session_chat_ctx }
  (ctx,
   [Effect.log "switching to the children\x27s book editor with the provided user data"],
   (childrens_editor, "Let\x27s switch to the children\x27s book editor."))

end LeadEditorAgent

namespace SpecialistEditorAgent

/-- `SpecialistEditorAgent.character_introduction`: same body as the
lead editor's tool. -/
def character_introduction (ctx : RunCtx) (name background : String) :
    RunCtx × List Effect :=
  let character : CharacterData := { name := some name, background := some background }
  ({ ctx with userdata :=
      { ctx.userdata with characters := ctx.userdata.characters ++ [character] } },
   [Effect.log ("added character to the story: " ++ name)])

/-- `SpecialistEditorAgent.location_introduction`: same body as the
lead editor's tool. -/
def location_introduction (ctx : RunCtx) (location : String) :
    RunCtx × List Effect :=
  ({ ctx with userdata :=
      { ctx.userdata with locations := ctx.userdata.locations ++ [location] } },
   [Effect.log ("added location to the story: " ++ location)])

/-- `SpecialistEditorAgent.theme_introduction`: same body as the lead
editor's tool. -/
def theme_introduction (ctx : RunCtx) (theme : String) :
    RunCtx × List Effect :=
  ({ ctx with userdata := { ctx.userdata with theme := some theme } },
   [Effect.log ("set theme to the story: " ++ theme)])

/-- `SpecialistEditorAgent.story_finished`: interrupts, awaits a
farewell reply generated with `allow_interruptions=True`, then awaits
`delete_room`. The teardown outcome is a parameter (the room service
may fail independently); the source has no `try`/`except`, so the
tool's own outcome is exactly the teardown outcome. -/
def story_finished (room : String) (teardown : Except String Unit) :
    List Effect × Except String Unit :=
  ([Effect.interrupt,
    Effect.generateReply (some "give brief but honest feedback on the story idea")
      (some true) true,
    Effect.deleteRoomRequest room],
   teardown)

end SpecialistEditorAgent

/-- `silero.VAD.load()` instances, identified so that distinct loads
are distinguishable and sharing by reference is expressible. -/
structure VADInstance where
  id : Nat
deriving Repr, DecidableEq

/-- The worker process state: how many VAD loads have happened in this
process, and the `proc.userdata["vad"]` slot. -/
structure ProcState where
  loadCount : Nat := 0
  vadSlot : Option VADInstance := none
deriving Repr, DecidableEq

def ProcState.fresh : ProcState := {}

/-- `prewarm(proc)`: performs one `silero.VAD.load()` (a fresh
instance) and stores it in `proc.userdata["vad"]`. -/
def prewarm (p : ProcState) : ProcState :=
  { loadCount := p.loadCount + 1, vadSlot := some { id := p.loadCount } }

/-- The session as assembled by `entrypoint`: the VAD it was handed and
the fresh `StoryData()` userdata. -/
structure Session where
  vad : VADInstance
  userdata : StoryData
deriving Repr, DecidableEq

/-- `entrypoint(ctx)`: reads `ctx.proc.userdata["vad"]` (a lookup that
fails if prewarm never ran; it performs no load) and starts a session
with `userdata=StoryData()`. The process state is returned unchanged:
the entrypoint never loads a VAD itself. -/
def entrypoint (p : ProcState) : Option Session × ProcState :=
  (p.vadSlot.map fun v => { vad := v, userdata := StoryData.init }, p)

/-- Modelled from the spec: the handoff application performed by the
framework (the `HandoffController` of §4.1; `livekit.agents` session
internals, not part of this repository). After `transferTo(specialist,
announcement)` the announcement is queued as the next turn on top of
the history the specialist was constructed with, so the specialist's
visible history is that inherited history followed by the announcement
turn. -/
def visibleHistoryAfterHandoff (a : SpecialistEditorAgent) (announcement : String) :
    ChatCtx :=
  a.chat_ctx.getD [] ++ [announcement]

/-- Does a trace contain a room-teardown request? -/
def requestsTeardown (tr : List Effect) : Bool :=
  tr.any fun e =>
    match e with
    | Effect.deleteRoomRequest _ => true
    | _ => false

/-- Does a trace contain an interrupt? -/
def issuesInterrupt (tr : List Effect) : Bool :=
  tr.any fun e =>
    match e with
    | Effect.interrupt => true
    | _ => false

/-- Does a trace contain a reply-generation request (e.g. a farewell)? -/
def issuesReply (tr : List Effect) : Bool :=
  tr.any fun e =>
    match e with
    | Effect.generateReply _ _ _ => true
    | _ => false

/-- The first reply-generation request in a trace, as
(instructions, allowInterruptions, awaited). -/
def farewellRequest (tr : List Effect) : Option (Option String × Option Bool × Bool) :=
  tr.findSome? fun e =>
    match e with
    | Effect.generateReply i a w => some (i, a, w)
    | _ => none

/-- The name of every lead-editor tool, with its arguments. -/
inductive LeadTool where
  | characterIntro (name background : String)
  | locationIntro (location : String)
  | themeIntro (theme : String)
  | detectedChildrensBook
  | detectedNovel
deriving Repr, DecidableEq

/-- Dispatch a lead-editor tool call, returning the updated context,
the trace of effects, and the handoff directive if any. -/
def LeadEditorAgent.runTool (t : LeadTool) (ctx : RunCtx) :
    RunCtx × List Effect × Option (SpecialistEditorAgent × String) :=
  match t with
  | LeadTool.characterIntro n b =>
      let r := LeadEditorAgent.character_introduction ctx n b
      (r.1, r.2, none)
  | LeadTool.locationIntro l =>
      let r := LeadEditorAgent.location_introduction ctx l
      (r.1, r.2, none)
  | LeadTool.themeIntro th =>
      let r := LeadEditorAgent.theme_introduction ctx th
      (r.1, r.2, none)
  | LeadTool.detectedChildrensBook =>
      let r := LeadEditorAgent.detected_childrens_book ctx
      (r.1, r.2.1, some r.2.2)
  | LeadTool.detectedNovel =>
      let r := LeadEditorAgent.detected_novel ctx
      (r.1, r.2.1, some r.2.2)

/-- The name of every specialist-editor tool, with its arguments.
`storyFinished` carries the room name and the teardown outcome. -/
inductive SpecialistTool where
  | characterIntro (name background : String)
  | locationIntro (location : String)
  | themeIntro (theme : String)
  | storyFinished (room : String) (teardown : Except String Unit)
deriving Repr

/-- Dispatch a specialist-editor tool call, returning the updated
context and the trace of effects. -/
def SpecialistEditorAgent.runTool (t : SpecialistTool) (ctx : RunCtx) :
    RunCtx × List Effect :=
  match t with
  | SpecialistTool.characterIntro n b => SpecialistEditorAgent.character_introduction ctx n b
  | SpecialistTool.locationIntro l => SpecialistEditorAgent.location_introduction ctx l
  | SpecialistTool.themeIntro th => SpecialistEditorAgent.theme_introduction ctx th
  | SpecialistTool.storyFinished room td =>
      (ctx, (SpecialistEditorAgent.story_finished room td).1)

/-- Is this specialist tool the terminal tool `story_finished`? -/
def SpecialistTool.isStoryFinished : SpecialistTool → Bool
  | SpecialistTool.storyFinished _ _ => true
  | _ => false

/-- Running a sequence of `character_introduction` calls in order. -/
def runCharacterIntros (ctx : RunCtx) (calls : List (String × String)) : RunCtx :=
  calls.foldl (fun c p => (LeadEditorAgent.character_introduction c p.1 p.2).1) ctx

lemma runCharacterIntros_characters (ctx : RunCtx) (calls : List (String × String)) :
    (runCharacterIntros ctx calls).userdata.characters =
      ctx.userdata.characters ++
        calls.map (fun p => ({ name := some p.1, background := some p.2 } : CharacterData)) := by
  induction calls generalizing ctx with
  | nil => simp [runCharacterIntros]
  | cons p rest ih =>
      have h := ih (LeadEditorAgent.character_introduction ctx p.1 p.2).1
      simp only [runCharacterIntros, List.foldl_cons] at h ⊢
      rw [h]
      simp [LeadEditorAgent.character_introduction]

/-- C1: `story_finished` performs, in exactly this order, (0) an
interrupt of any in-flight reply, (1) a farewell reply request that is
awaited to completion, (2) a room-teardown request, and nothing else:
the teardown request is never issued before the awaited farewell
reply has completed. -/
theorem story_finished_effect_order (room : String) (td : Except String Unit) :
    (SpecialistEditorAgent.story_finished room td).1.get? 0 = some Effect.interrupt ∧
    (SpecialistEditorAgent.story_finished room td).1.get? 1 =
      some (Effect.generateReply (some "give brief but honest feedback on the story idea")
        (some true) true) ∧
    (SpecialistEditorAgent.story_finished room td).1.get? 2 =
      some (Effect.deleteRoomRequest room) ∧
    (SpecialistEditorAgent.story_finished room td).1.length = 3 :=
  ⟨rfl, rfl, rfl, rfl⟩

/-- C2: evaluating the terminal tool shows that the farewell reply is
requested with `allow_interruptions=True`, i.e. interruptible — it is
not requested with `allow_interruptions=False` as the spec (and the
code's own comment promising the message is played out) requires. -/
theorem story_finished_farewell_is_interruptible :
    farewellRequest (SpecialistEditorAgent.story_finished "room" (Except.ok ())).1 =
      some (some "give brief but honest feedback on the story idea", some true, true) ∧
    ∀ i w, farewellRequest (SpecialistEditorAgent.story_finished "room" (Except.ok ())).1 ≠
      some (i, some false, w) := by
  refine ⟨rfl, fun i w h => ?_⟩
  rw [show farewellRequest (SpecialistEditorAgent.story_finished "room" (Except.ok ())).1 =
      some (some "give brief but honest feedback on the story idea", some true, true) from rfl] at h
  simp at h

/-- C3, counterexample: when the room-teardown request fails, the error
is NOT swallowed inside `story_finished` — the tool's own outcome is
that very error, refuting "does not propagate the error out of the
terminal tool". -/
theorem story_finished_propagates_teardown_error :
    (SpecialistEditorAgent.story_finished "room" (Except.error "teardown failed")).2 =
      Except.error "teardown failed" := rfl

/-- C3, amended: `story_finished` issues exactly one teardown request
(it never retries), the farewell has already been delivered before the
request, and — since the source has no `try`/`except` around
`delete_room` — the tool's outcome is exactly the teardown outcome:
a failure propagates out of the terminal tool uncaught. -/
theorem story_finished_no_retry_uncaught (room : String) (td : Except String Unit) :
    (SpecialistEditorAgent.story_finished room td).1.countP
      (fun e => match e with | Effect.deleteRoomRequest _ => true | _ => false) = 1 ∧
    (SpecialistEditorAgent.story_finished room td).2 = td :=
  ⟨rfl, rfl⟩

/-- C4: `detected_childrens_book` and `detected_novel` are
extensionally identical except for the specialty string given to the
specialist they construct: for every run context both leave the state
unchanged, perform the same log effect, transfer the same full chat
history, and return the same announcement string. -/
theorem classification_tools_agree (ctx : RunCtx) :
    (LeadEditorAgent.detected_childrens_book ctx).2.2.1.specialty = "children\x27s books" ∧
    (LeadEditorAgent.detected_novel ctx).2.2.1.specialty = "novels" ∧
    (LeadEditorAgent.detected_childrens_book ctx).2.2.1.chat_ctx = some ctx.session_chat_ctx ∧
    (LeadEditorAgent.detected_novel ctx).2.2.1.chat_ctx = some ctx.session_chat_ctx ∧
    (LeadEditorAgent.detected_childrens_book ctx).2.2.2 =
      (LeadEditorAgent.detected_novel ctx).2.2.2 ∧
    (LeadEditorAgent.detected_childrens_book ctx).1 = (LeadEditorAgent.detected_novel ctx).1 ∧
    (LeadEditorAgent.detected_childrens_book ctx).2.1 =
      (LeadEditorAgent.detected_novel ctx).2.1 ∧
    { (LeadEditorAgent.detected_novel ctx).2.2.1 with specialty := "children\x27s books" } =
      (LeadEditorAgent.detected_childrens_book ctx).2.2.1 :=
  ⟨rfl, rfl, rfl, rfl, rfl, rfl, rfl, rfl⟩

/-- C5: `character_introduction` appends exactly one record with the
given name and background to the end of the characters list (the same
for the lead's and the specialist's copy of the tool), and a sequence
of N sequential calls yields exactly the starting list followed by the
N new records in call order — nothing dropped, nothing reordered. -/
theorem character_introduction_additive (ctx : RunCtx) (name background : String)
    (calls : List (String × String)) :
    (LeadEditorAgent.character_introduction ctx name background).1.userdata.characters =
      ctx.userdata.characters ++ [{ name := some name, background := some background }] ∧
    SpecialistEditorAgent.character_introduction ctx name background =
      LeadEditorAgent.character_introduction ctx name background ∧
    (runCharacterIntros ctx calls).userdata.characters =
      ctx.userdata.characters ++
        calls.map (fun p => ({ name := some p.1, background := some p.2 } : CharacterData)) :=
  ⟨rfl, rfl, runCharacterIntros_characters ctx calls⟩

/-- C6: each state-mutating tool touches only its own field of the
shared `StoryData`: `theme_introduction` sets `theme` and leaves
`characters`/`locations` unchanged; `location_introduction` appends to
`locations` and leaves `characters`/`theme` unchanged;
`character_introduction` appends to `characters` and leaves
`locations`/`theme` unchanged. -/
theorem tools_frame_effects (ctx : RunCtx) (name background location theme : String) :
    ((LeadEditorAgent.theme_introduction ctx theme).1.userdata.theme = some theme ∧
     (LeadEditorAgent.theme_introduction ctx theme).1.userdata.characters =
       ctx.userdata.characters ∧
     (LeadEditorAgent.theme_introduction ctx theme).1.userdata.locations =
       ctx.userdata.locations) ∧
    ((LeadEditorAgent.location_introduction ctx location).1.userdata.locations =
       ctx.userdata.locations ++ [location] ∧
     (LeadEditorAgent.location_introduction ctx location).1.userdata.characters =
       ctx.userdata.characters ∧
     (LeadEditorAgent.location_introduction ctx location).1.userdata.theme =
       ctx.userdata.theme) ∧
    ((LeadEditorAgent.character_introduction ctx name background).1.userdata.characters =
       ctx.userdata.characters ++ [{ name := some name, background := some background }] ∧
     (LeadEditorAgent.character_introduction ctx name background).1.userdata.locations =
       ctx.userdata.locations ∧
     (LeadEditorAgent.character_introduction ctx name background).1.userdata.theme =
       ctx.userdata.theme) :=
  ⟨⟨rfl, rfl, rfl⟩, ⟨rfl, rfl, rfl⟩, ⟨rfl, rfl, rfl⟩⟩

/-- C7: a classification tool constructs the specialist with the
session's current chat context, and (with the handoff semantics
modelled from the spec) the specialist's visible history length equals
the lead agent's history length plus the announcement turn. -/
theorem handoff_full_history (ctx : RunCtx) :
    (LeadEditorAgent.detected_childrens_book ctx).2.2.1.chat_ctx =
      some ctx.session_chat_ctx ∧
    (LeadEditorAgent.detected_novel ctx).2.2.1.chat_ctx = some ctx.session_chat_ctx ∧
    (visibleHistoryAfterHandoff (LeadEditorAgent.detected_childrens_book ctx).2.2.1
        (LeadEditorAgent.detected_childrens_book ctx).2.2.2).length =
      ctx.session_chat_ctx.length + 1 := by
  refine ⟨rfl, rfl, ?_⟩
  simp [visibleHistoryAfterHandoff, LeadEditorAgent.detected_childrens_book]

/-- C8: the VAD is loaded exactly once per worker process, in
`prewarm`; `entrypoint` performs no load (the process state is
unchanged) and hands every session it creates exactly the instance
stored in the prewarm slot. -/
theorem vad_loaded_once_and_shared :
    (prewarm ProcState.fresh).loadCount = 1 ∧
    (∀ p : ProcState, (entrypoint p).2 = p ∧
      ((entrypoint p).1.map Session.vad) = p.vadSlot) ∧
    ((entrypoint (prewarm ProcState.fresh)).1.map Session.vad =
      (prewarm ProcState.fresh).vadSlot) := by
  refine ⟨rfl, fun p => ⟨rfl, ?_⟩, rfl⟩
  cases h : p.vadSlot <;> simp [entrypoint, h]

/-- C9: every session the entrypoint creates starts with the shared
state `StoryData()`: an empty characters list, an empty locations
list, and no theme. -/
theorem session_state_starts_empty (p : ProcState) (s : Session)
    (h : (entrypoint p).1 = some s) :
    s.userdata.characters = [] ∧ s.userdata.locations = [] ∧ s.userdata.theme = none := by
  cases hv : p.vadSlot with
  | none => simp [entrypoint, hv] at h
  | some v =>
      simp only [entrypoint, hv] at h
      have h2 := Option.some.inj h
      rw [← h2]
      exact ⟨rfl, rfl, rfl⟩

/-- Witness for C9 at the concrete process state produced by prewarm. -/
theorem session_state_starts_empty_witness :
    ({ vad := { id := 0 }, userdata := StoryData.init } : Session).userdata.characters = [] ∧
    ({ vad := { id := 0 }, userdata := StoryData.init } : Session).userdata.locations = [] ∧
    ({ vad := { id := 0 }, userdata := StoryData.init } : Session).userdata.theme = none :=
  session_state_starts_empty (prewarm ProcState.fresh)
    { vad := { id := 0 }, userdata := StoryData.init } rfl

/-- C10: no lead-editor tool ever issues an interrupt, a reply
(farewell), or a room-teardown request — session termination is
unreachable while the lead agent is active — and among the specialist's
tools, exactly `story_finished` requests teardown. -/
theorem teardown_only_via_story_finished (t : LeadTool) (t' : SpecialistTool)
    (ctx ctx' : RunCtx) :
    requestsTeardown (LeadEditorAgent.runTool t ctx).2.1 = false ∧
    issuesInterrupt (LeadEditorAgent.runTool t ctx).2.1 = false ∧
    issuesReply (LeadEditorAgent.runTool t ctx).2.1 = false ∧
    requestsTeardown (SpecialistEditorAgent.runTool t' ctx').2 = t'.isStoryFinished := by
  refine ⟨?_, ?_, ?_, ?_⟩
  · cases t <;> rfl
  · cases t <;> rfl
  · cases t <;> rfl
  · cases t' <;> rfl
